import Mathlib

/-!
Shallow embedding of `float_preview.py` (ComfyUI-Mohseni-Kit): the floating
image-preview viewer, its polling change detector (`check_for_updates`),
the two cache tiers, keyboard navigation, session restore, settings loading
and the producer-side `open_float_window` entry point.

Modelling conventions:
* A Python `dict` (insertion-ordered since 3.7) is an association list
  `List (String × α)`; assignment updates an existing key in place or
  appends a new one at the end.
* The PathStore JSON file (`image_paths.json`) is `Option (Option (List String))`:
  `none` = file absent, `some none` = present but unparsable
  (`json.JSONDecodeError`), `some (some l)` = parses to the list `l`.
* Pixmap contents are abstracted as `Nat`; the filesystem/decoder is a
  function `disk : String → Option Nat` where `none` models
  `QPixmap(path).isNull()`.  A scaled pixmap records the source pixmap
  together with the target width and height it was scaled to.
* Python exceptions that escape a function are modelled with
  `Except String`; a total Lean function models Python code with no
  uncaught raise.
* Python list comparison `!=` is content (element-wise) inequality, which
  is exactly `≠` on `List String` here.
-/

/-- Lookup in the insertion-ordered Python-dict model: first binding wins
(a dict holds each key at most once, which insertion preserves). -/
def dictFind {α : Type} (d : List (String × α)) (k : String) : Option α :=
  match d with
  | [] => none
  | (k', v) :: rest => if k' = k then some v else dictFind rest k

/-- Python dict assignment `d[k] = v`: overwrite in place when the key is
present (keeping its position), otherwise append at the end. -/
def dictInsert {α : Type} (d : List (String × α)) (k : String) (v : α) :
    List (String × α) :=
  if (dictFind d k).isSome then
    d.map (fun e => if e.1 = k then (k, v) else e)
  else
    d ++ [(k, v)]

/-- The mutable `FloatWindow` state touched by the verified operations:
the session path list and index, the two cache tiers
(`pixmap_cache`, `scaled_image_cache`), the single shared
`current_label_size` staleness field, the cache bound, the closing flag,
the pin state and the window/label geometry. -/
structure FloatWindow where
  temp_image_paths : List String
  current_index : Int
  pixmap_cache : List (String × Nat)
  scaled_image_cache : List (String × (Nat × Nat × Nat))
  current_label_size : Option (Nat × Nat)
  max_cache_size : Nat
  closing : Bool
  always_on_top : Bool
  window_w : Nat
  window_h : Nat
  label_w : Nat
  label_h : Nat
  deriving DecidableEq

/-- `FloatWindow.__init__` state before `check_for_existing_images` runs:
the constructor argument becomes `temp_image_paths`, the index is 0, both
caches are empty dicts, `current_label_size` is `None`, the bound is 50,
and the geometry comes from `load_settings` / `resize`. -/
def initFloatWindow (ww wh lw lh : Nat) (aot : Bool) (paths : List String) :
    FloatWindow :=
  { temp_image_paths := paths
    current_index := 0
    pixmap_cache := []
    scaled_image_cache := []
    current_label_size := none
    max_cache_size := 50
    closing := false
    always_on_top := aot
    window_w := ww
    window_h := wh
    label_w := lw
    label_h := lh }

/-- `FloatWindow.update_image`: return early when closing or the path list
is empty; normalise `current_index` modulo the list length; serve from the
scaled cache only when the path is cached and the shared
`current_label_size` equals the label's current size; otherwise decode from
disk (a null pixmap logs and returns), scale to the window size, store the
result in the scaled cache and refresh `current_label_size`. -/
def update_image (disk : String → Option Nat) (w : FloatWindow) : FloatWindow :=
  if w.closing || w.temp_image_paths.isEmpty then w
  else
    let idx : Int := w.current_index % (w.temp_image_paths.length : Int)
    let path : String := w.temp_image_paths.getD idx.toNat ""
    let w1 : FloatWindow := { w with current_index := idx }
    if (dictFind w1.scaled_image_cache path).isSome = true ∧
        w1.current_label_size = some (w1.label_w, w1.label_h) then
      w1
    else
      match disk path with
      | none => w1
      | some pix =>
        { w1 with
          scaled_image_cache :=
            dictInsert w1.scaled_image_cache path (pix, w1.window_w, w1.window_h)
          current_label_size := some (w1.label_w, w1.label_h) }

/-- `FloatWindow.check_for_updates`: one ChangeDetector tick.  Return when
the PathStore file is absent; read and parse it, returning (with a log)
on `json.JSONDecodeError`; when the parsed list differs from
`temp_image_paths` (Python `!=`, content comparison), clear the scaled
cache, clear both caches via `clear_cache`, install the new list, reset the
index to 0 and re-render via `update_image`; otherwise change nothing. -/
def check_for_updates (disk : String → Option Nat)
    (file : Option (Option (List String))) (w : FloatWindow) : FloatWindow :=
  match file with
  | none => w
  | some none => w
  | some (some new_image_paths) =>
    if new_image_paths ≠ w.temp_image_paths then
      update_image disk
        { w with
          scaled_image_cache := []
          pixmap_cache := []
          temp_image_paths := new_image_paths
          current_index := 0 }
    else w

/-- The ChangeDetector is in its Displaying state exactly when the session
holds a non-empty path list. -/
def is_displaying (w : FloatWindow) : Prop :=
  w.temp_image_paths ≠ []

theorem update_image_temp_image_paths (disk : String → Option Nat)
    (w : FloatWindow) :
    (update_image disk w).temp_image_paths = w.temp_image_paths := by
  unfold update_image
  split
  · rfl
  · dsimp only
    split
    · rfl
    · split <;> rfl

theorem update_image_pixmap_cache (disk : String → Option Nat)
    (w : FloatWindow) :
    (update_image disk w).pixmap_cache = w.pixmap_cache := by
  unfold update_image
  split
  · rfl
  · dsimp only
    split
    · rfl
    · split <;> rfl

theorem update_image_index_zero (disk : String → Option Nat)
    (w : FloatWindow) (h : w.current_index = 0) :
    (update_image disk w).current_index = 0 := by
  unfold update_image
  split
  · exact h
  · have hz : w.current_index % (w.temp_image_paths.length : Int) = 0 := by
      rw [h]; exact Int.zero_emod _
    dsimp only
    split
    · exact hz
    · split <;> exact hz

/-- C1: a tick that reads a list `P2` different from the displayed `P1`
clears both cache tiers, installs `P2` at index 0, re-renders via
`update_image`, and is Displaying afterwards whenever `P2` is non-empty. -/
theorem check_for_updates_change (disk : String → Option Nat)
    (w : FloatWindow) (P1 P2 : List String)
    (h1 : w.temp_image_paths = P1) (h2 : P2 ≠ P1) :
    check_for_updates disk (some (some P2)) w =
      update_image disk
        { w with
          scaled_image_cache := []
          pixmap_cache := []
          temp_image_paths := P2
          current_index := 0 } ∧
    (check_for_updates disk (some (some P2)) w).temp_image_paths = P2 ∧
    (check_for_updates disk (some (some P2)) w).current_index = 0 ∧
    (check_for_updates disk (some (some P2)) w).pixmap_cache = [] ∧
    (P2 ≠ [] → is_displaying (check_for_updates disk (some (some P2)) w)) := by
  have hne : P2 ≠ w.temp_image_paths := by rw [h1]; exact h2
  have hstep : check_for_updates disk (some (some P2)) w =
      update_image disk
        { w with
          scaled_image_cache := []
          pixmap_cache := []
          temp_image_paths := P2
          current_index := 0 } := by
    unfold check_for_updates
    simp [hne]
  refine ⟨hstep, ?_, ?_, ?_, ?_⟩
  · rw [hstep, update_image_temp_image_paths]
  · rw [hstep]; exact update_image_index_zero _ _ rfl
  · rw [hstep, update_image_pixmap_cache]
  · intro hP2
    unfold is_displaying
    rw [hstep, update_image_temp_image_paths]
    exact hP2

/-- Witness for C1 at a concrete state: displaying `["a"]`, the store now
holds `["b"]`. -/
theorem check_for_updates_change_witness :
    (["b"] ≠ ["a"]) ∧
    (check_for_updates (fun p => if p = "b" then some 5 else none)
        (some (some ["b"])) (initFloatWindow 600 600 580 580 false ["a"])
      ).temp_image_paths = ["b"] ∧
    (check_for_updates (fun p => if p = "b" then some 5 else none)
        (some (some ["b"])) (initFloatWindow 600 600 580 580 false ["a"])
      ).current_index = 0 := by
  have h := check_for_updates_change
    (fun p => if p = "b" then some 5 else none)
    (initFloatWindow 600 600 580 580 false ["a"]) ["a"] ["b"]
    rfl (by decide)
  exact ⟨by decide, h.2.1, h.2.2.1⟩

/-- C2: a tick that reads a list content-equal to the displayed one changes
nothing: the whole state (both cache tiers, `currentPaths`,
`currentIndex`) is untouched and no re-render happens. -/
theorem check_for_updates_same (disk : String → Option Nat)
    (w : FloatWindow) (P : List String) (h : P = w.temp_image_paths) :
    check_for_updates disk (some (some P)) w = w := by
  unfold check_for_updates
  simp [h]

/-- Witness for C2: re-publishing the identical one-element list is a
no-op on a concrete displaying state. -/
theorem check_for_updates_same_witness :
    check_for_updates (fun _ => some 1) (some (some ["/tmp/a.png"]))
      (initFloatWindow 600 600 580 580 false ["/tmp/a.png"]) =
      initFloatWindow 600 600 580 580 false ["/tmp/a.png"] :=
  check_for_updates_same (fun _ => some 1)
    (initFloatWindow 600 600 580 580 false ["/tmp/a.png"]) ["/tmp/a.png"] rfl

/-- Keys handled by `FloatWindow.keyPressEvent`. -/
inductive Key where
  | escape
  | ctrl_s
  | ctrl_c
  | ctrl_t
  | right
  | down
  | left
  | up
  deriving DecidableEq

/-- `FloatWindow.keyPressEvent`.  Escape closes (the `closeEvent` handler
sets the closing flag, saves settings, stops the timer and clears both
caches); Ctrl+S / Ctrl+C leave the modelled session state unchanged;
Ctrl+T toggles the pin flag.  Right/Down and Left/Up recompute the index
as `(current_index ± 1) % len(temp_image_paths)` with no emptiness guard,
so Python raises `ZeroDivisionError` when the list is empty; otherwise the
handler re-renders via `update_image`. -/
def keyPressEvent (disk : String → Option Nat) (k : Key) (w : FloatWindow) :
    Except String FloatWindow :=
  match k with
  | .escape =>
    .ok { w with closing := true, pixmap_cache := [], scaled_image_cache := [] }
  | .ctrl_s => .ok w
  | .ctrl_c => .ok w
  | .ctrl_t => .ok { w with always_on_top := !w.always_on_top }
  | .right | .down =>
    if w.temp_image_paths.length = 0 then
      .error "ZeroDivisionError: integer modulo by zero"
    else
      .ok (update_image disk
        { w with
          current_index :=
            (w.current_index + 1) % (w.temp_image_paths.length : Int) })
  | .left | .up =>
    if w.temp_image_paths.length = 0 then
      .error "ZeroDivisionError: integer modulo by zero"
    else
      .ok (update_image disk
        { w with
          current_index :=
            (w.current_index - 1) % (w.temp_image_paths.length : Int) })

theorem update_image_index_of_bounds (disk : String → Option Nat)
    (w : FloatWindow) (h0 : 0 ≤ w.current_index)
    (h1 : w.current_index < (w.temp_image_paths.length : Int)) :
    (update_image disk w).current_index = w.current_index := by
  unfold update_image
  split
  · rfl
  · have hz : w.current_index % (w.temp_image_paths.length : Int) =
        w.current_index := Int.emod_eq_of_lt h0 h1
    dsimp only
    split
    · exact hz
    · split <;> exact hz

/-- C9: with a non-empty `n`-element session, every navigation key yields
an index in `[0, n)`; stepping forward from `n - 1` wraps to `0` and
stepping backward from `0` wraps to `n - 1`. -/
theorem nav_wraps (disk : String → Option Nat) (w : FloatWindow) (n : Nat)
    (hn : w.temp_image_paths.length = n) (hpos : 0 < n) :
    (∀ k w', (k = Key.right ∨ k = Key.down ∨ k = Key.left ∨ k = Key.up) →
      keyPressEvent disk k w = .ok w' →
      0 ≤ w'.current_index ∧ w'.current_index < (n : Int)) ∧
    (w.current_index = (n : Int) - 1 →
      ∃ w', keyPressEvent disk Key.right w = .ok w' ∧ w'.current_index = 0) ∧
    (w.current_index = 0 →
      ∃ w', keyPressEvent disk Key.left w = .ok w' ∧
        w'.current_index = (n : Int) - 1) := by
  have hne : ¬ w.temp_image_paths.length = 0 := by omega
  have hposZ : (0 : Int) < (w.temp_image_paths.length : Int) := by
    exact_mod_cast hpos.trans_eq hn.symm
  have hnz : (w.temp_image_paths.length : Int) ≠ 0 := ne_of_gt hposZ
  have key_index : ∀ d : Int,
      (update_image disk
        { w with current_index :=
            (w.current_index + d) % (w.temp_image_paths.length : Int) }
      ).current_index =
        (w.current_index + d) % (w.temp_image_paths.length : Int) := by
    intro d
    exact update_image_index_of_bounds disk _
      (Int.emod_nonneg _ hnz) (Int.emod_lt_of_pos _ hposZ)
  refine ⟨?_, ?_, ?_⟩
  · intro k w' _hk hok
    have bounds : ∀ d : Int,
        update_image disk
          { w with current_index :=
              (w.current_index + d) % (w.temp_image_paths.length : Int) } = w' →
        0 ≤ w'.current_index ∧ w'.current_index < (n : Int) := by
      intro d hd
      have := key_index d
      rw [hd] at this
      rw [this, ← hn]
      exact ⟨Int.emod_nonneg _ hnz, Int.emod_lt_of_pos _ hposZ⟩
    cases k with
    | right =>
      rw [keyPressEvent, if_neg hne] at hok
      exact bounds 1 (Except.ok.inj hok)
    | down =>
      rw [keyPressEvent, if_neg hne] at hok
      exact bounds 1 (Except.ok.inj hok)
    | left =>
      rw [keyPressEvent, if_neg hne] at hok
      exact bounds (-1) (by simpa [sub_eq_add_neg] using Except.ok.inj hok)
    | up =>
      rw [keyPressEvent, if_neg hne] at hok
      exact bounds (-1) (by simpa [sub_eq_add_neg] using Except.ok.inj hok)
    | escape => simp at _hk
    | ctrl_s => simp at _hk
    | ctrl_c => simp at _hk
    | ctrl_t => simp at _hk
  · intro hlast
    refine ⟨_, by rw [keyPressEvent, if_neg hne], ?_⟩
    have hmod : (w.current_index + 1) % (w.temp_image_paths.length : Int) = 0 := by
      rw [hlast, hn]
      rw [show ((n : Int) - 1 + 1) = (n : Int) by ring]
      rw [show (n : Int) = (w.temp_image_paths.length : Int) by rw [hn]]
      exact Int.emod_self
    have := update_image_index_of_bounds disk
      { w with current_index :=
          (w.current_index + 1) % (w.temp_image_paths.length : Int) }
      (Int.emod_nonneg _ hnz) (Int.emod_lt_of_pos _ hposZ)
    rw [this, hmod]
  · intro hfirst
    refine ⟨_, by rw [keyPressEvent, if_neg hne], ?_⟩
    have hmod : (w.current_index - 1) % (w.temp_image_paths.length : Int) =
        (w.temp_image_paths.length : Int) - 1 := by
      rw [hfirst]
      rw [show ((0 : Int) - 1) = ((w.temp_image_paths.length : Int) - 1) +
        (w.temp_image_paths.length : Int) * (-1) by ring]
      rw [Int.add_mul_emod_self_left]
      exact Int.emod_eq_of_lt (by omega) (by omega)
    have := update_image_index_of_bounds disk
      { w with current_index :=
          (w.current_index - 1) % (w.temp_image_paths.length : Int) }
      (Int.emod_nonneg _ hnz) (Int.emod_lt_of_pos _ hposZ)
    rw [this, hmod, hn]

/-- Witness for C9 on a concrete three-element session. -/
theorem nav_wraps_witness :
    (∃ w', keyPressEvent (fun _ => none) Key.right
        { initFloatWindow 5 5 5 5 false ["a", "b", "c"] with current_index := 2 }
        = .ok w' ∧ w'.current_index = 0) ∧
    (∃ w', keyPressEvent (fun _ => none) Key.left
        (initFloatWindow 5 5 5 5 false ["a", "b", "c"])
        = .ok w' ∧ w'.current_index = (3 : Int) - 1) := by
  refine ⟨?_, ?_⟩
  · exact (nav_wraps (fun _ => none)
      { initFloatWindow 5 5 5 5 false ["a", "b", "c"] with current_index := 2 }
      3 rfl (by decide)).2.1 (by decide)
  · exact (nav_wraps (fun _ => none)
      (initFloatWindow 5 5 5 5 false ["a", "b", "c"])
      3 rfl (by decide)).2.2 (by decide)

/-- C10: with an empty session list, each navigation key raises
`ZeroDivisionError` (the modulo runs with no emptiness guard), whereas
`update_image` returns early on an empty list. -/
theorem empty_nav_zero_division (disk : String → Option Nat)
    (w : FloatWindow) (h : w.temp_image_paths = []) :
    keyPressEvent disk Key.right w =
      .error "ZeroDivisionError: integer modulo by zero" ∧
    keyPressEvent disk Key.down w =
      .error "ZeroDivisionError: integer modulo by zero" ∧
    keyPressEvent disk Key.left w =
      .error "ZeroDivisionError: integer modulo by zero" ∧
    keyPressEvent disk Key.up w =
      .error "ZeroDivisionError: integer modulo by zero" ∧
    update_image disk w = w := by
  have hlen : w.temp_image_paths.length = 0 := by rw [h]; rfl
  have hemp : w.temp_image_paths.isEmpty = true := by rw [h]; rfl
  refine ⟨?_, ?_, ?_, ?_, ?_⟩
  · rw [keyPressEvent, if_pos hlen]
  · rw [keyPressEvent, if_pos hlen]
  · rw [keyPressEvent, if_pos hlen]
  · rw [keyPressEvent, if_pos hlen]
  · unfold update_image
    rw [if_pos (by rw [hemp, Bool.or_true])]

/-- Witness for C10 at a concrete empty session. -/
theorem empty_nav_zero_division_witness :
    keyPressEvent (fun _ => none) Key.right (initFloatWindow 5 5 5 5 false []) =
      .error "ZeroDivisionError: integer modulo by zero" ∧
    update_image (fun _ => none) (initFloatWindow 5 5 5 5 false []) =
      initFloatWindow 5 5 5 5 false [] := by
  have h := empty_nav_zero_division (fun _ => none)
    (initFloatWindow 5 5 5 5 false []) rfl
  exact ⟨h.1, h.2.2.2.2⟩

/-- `FloatWindow.load_pixmap`: serve a cached decoded pixmap; on a miss,
decode from disk (null pixmap logs and returns `None`); when the cache has
reached `max_cache_size`, the code calls
`self.pixmap_cache.popitem(last=False)` — but `pixmap_cache` is a plain
`dict`, whose `popitem` takes no keyword arguments, so Python raises
`TypeError` instead of evicting; otherwise insert and return. -/
def load_pixmap (disk : String → Option Nat) (w : FloatWindow)
    (path : String) : Except String (Option Nat × FloatWindow) :=
  match dictFind w.pixmap_cache path with
  | some p => .ok (some p, w)
  | none =>
    match disk path with
    | none => .ok (none, w)
    | some pix =>
      if w.max_cache_size ≤ w.pixmap_cache.length then
        .error "TypeError: popitem() takes no keyword arguments"
      else
        .ok (some pix,
          { w with pixmap_cache := dictInsert w.pixmap_cache path pix })

/-- A pixmap-cache tier already holding 50 distinct decoded entries. -/
def full_pixmap_cache : List (String × Nat) :=
  (List.range 50).map (fun i => (Nat.repr i, i))

/-- A scaled-cache tier already holding 50 distinct scaled entries. -/
def full_scaled_cache : List (String × (Nat × Nat × Nat)) :=
  (List.range 50).map (fun i => (Nat.repr i, (i, 600, 600)))

/-- Viewer state whose pixmap cache is full and whose current path `"x"`
is a fresh 51st key. -/
def w_full_pixmap : FloatWindow :=
  { initFloatWindow 600 600 580 580 false ["x"] with
    pixmap_cache := full_pixmap_cache }

/-- Viewer state whose scaled cache is full and whose current path `"x"`
is a fresh 51st key. -/
def w_full_scaled : FloatWindow :=
  { initFloatWindow 600 600 580 580 false ["x"] with
    scaled_image_cache := full_scaled_cache }

/-- Disk providing a decodable pixmap for the fresh path `"x"`. -/
def disk_fresh : String → Option Nat :=
  fun p => if p = "x" then some 99 else none

/-- C3 (code bug evidence): inserting a 51st distinct key into the decoded
tier raises `TypeError` (plain-dict `popitem(last=False)`) instead of
evicting FIFO, and inserting a 51st distinct key into the scaled tier
evicts nothing — the tier grows to 51 entries, past the documented bound
of 50. -/
theorem cache_bound_violated :
    load_pixmap disk_fresh w_full_pixmap "x" =
      .error "TypeError: popitem() takes no keyword arguments" ∧
    (update_image disk_fresh w_full_scaled).scaled_image_cache.length = 51 := by
  constructor
  · rfl
  · rfl

/-- The path shown by `update_image`: the entry at the normalised current
index. -/
def displayed_path (w : FloatWindow) : String :=
  w.temp_image_paths.getD
    (w.current_index % (w.temp_image_paths.length : Int)).toNat ""

/-- `FloatWindow.resizeEvent`: by the time the handler runs, the window and
label already have their new geometry; the handler clears the whole scaled
cache, adjusts the label and re-renders via `update_image`. -/
def resizeEvent (disk : String → Option Nat) (nw nh nlw nlh : Nat)
    (w : FloatWindow) : FloatWindow :=
  update_image disk
    { w with
      window_w := nw
      window_h := nh
      label_w := nlw
      label_h := nlh
      scaled_image_cache := [] }

/-- Viewer state displaying `"a"` with scaled entries cached for both
`"a"` and `"b"` at the current label size. -/
def w_two_scaled : FloatWindow :=
  { initFloatWindow 5 5 5 5 false ["a", "b"] with
    scaled_image_cache := [("a", (1, 5, 5)), ("b", (2, 5, 5))]
    current_label_size := some (5, 5) }

/-- Disk holding decodable pixmaps for `"a"` and `"b"`. -/
def disk_two : String → Option Nat :=
  fun p => if p = "a" then some 1 else if p = "b" then some 2 else none

/-- C4 counterexample: before a resize the scaled cache holds an entry for
the non-displayed path `"b"`; after the resize that entry is gone — the
resize flushed the scaled cache rather than keeping other paths' entries. -/
theorem resize_discards_other_entries :
    (dictFind w_two_scaled.scaled_image_cache "b").isSome = true ∧
    dictFind (resizeEvent disk_two 6 6 6 6 w_two_scaled).scaled_image_cache "b"
      = none := by
  constructor
  · rfl
  · rfl

/-- C4 amended: a resize clears the scaled cache entirely before
re-rendering, so afterwards the scaled cache holds at most one entry — a
fresh re-scale of the currently displayed path; no other path's entry
survives. -/
theorem resize_cache_only_displayed (disk : String → Option Nat)
    (nw nh nlw nlh : Nat) (w : FloatWindow) :
    (resizeEvent disk nw nh nlw nlh w).scaled_image_cache = [] ∨
    ∃ v, (resizeEvent disk nw nh nlw nlh w).scaled_image_cache =
      [(displayed_path w, v)] := by
  unfold resizeEvent update_image
  split
  · exact Or.inl rfl
  · dsimp only
    split
    · rename_i hcond
      exact absurd hcond.1 (by simp [dictFind])
    · split
      · exact Or.inl rfl
      · rename_i pix _
        refine Or.inr ⟨(pix, nw, nh), ?_⟩
        simp [dictInsert, dictFind, displayed_path]

/-- Python truthiness of an optional string: `None` and `""` are falsy. -/
def pyTruthy (o : Option String) : Bool :=
  match o with
  | none => false
  | some s => !s.isEmpty

/-- `FloatWindow.check_for_existing_images`.  `stored_hash` is the
`first_image_hash` read from the settings file (`none` covers a missing
key, an absent file and a parse failure, which only logs); `store2` is the
second read of the PathStore file: `none` = unparsable (log and return),
otherwise the parsed list, with an absent file reading as `"[]"` and hence
the empty list.  When the list is non-empty: every path must exist
(`safe_exists`) and decode to a non-null pixmap, else nothing changes;
with a truthy stored hash, a truthy freshly computed hash of the first
path that differs means return (new image detected — nothing changes);
otherwise the list is installed at index 0. -/
def check_for_existing_images (file_exists : String → Bool)
    (disk : String → Option Nat) (hash_fn : String → Option String)
    (stored_hash : Option String) (store2 : Option (List String))
    (w : FloatWindow) : FloatWindow :=
  match store2 with
  | none => w
  | some paths =>
    if paths.isEmpty then w
    else
      let image_existence :=
        paths.all (fun p => file_exists p && (disk p).isSome)
      if image_existence && pyTruthy stored_hash then
        match hash_fn paths.headI with
        | some c =>
          if ¬c.isEmpty = true ∧ c ≠ stored_hash.getD "" then w
          else { w with temp_image_paths := paths, current_index := 0 }
        | none => { w with temp_image_paths := paths, current_index := 0 }
      else if image_existence then
        { w with temp_image_paths := paths, current_index := 0 }
      else w

/-- `run_float_window`: return (no window) when the PathStore file is
absent or unparsable; otherwise construct a `FloatWindow` with the parsed
list, whose `__init__` runs `check_for_existing_images` (reading the file
a second time, `store2`) and finally `update_image`. -/
def run_float_window (store1 : Option (Option (List String)))
    (store2 : Option (List String)) (file_exists : String → Bool)
    (disk : String → Option Nat) (hash_fn : String → Option String)
    (stored_hash : Option String) (ww wh lw lh : Nat) (aot : Bool) :
    Option FloatWindow :=
  match store1 with
  | none => none
  | some none => none
  | some (some paths) =>
    some (update_image disk
      (check_for_existing_images file_exists disk hash_fn stored_hash store2
        (initFloatWindow ww wh lw lh aot paths)))

/-- Startup inputs for the C5 counterexample: the store holds `["a"]`,
the path exists and decodes, but the stored fingerprint `"h1"` differs
from the freshly computed `"h2"`. -/
def mismatch_startup : Option FloatWindow :=
  run_float_window (some (some ["a"])) (some ["a"])
    (fun p => p = "a") (fun p => if p = "a" then some 1 else none)
    (fun p => if p = "a" then some "h2" else none) (some "h1")
    600 600 580 580 false

/-- C5 counterexample: on a fingerprint mismatch the viewer does NOT start
Idle with an empty list — `run_float_window` already handed the PathStore
list to the constructor, and `check_for_existing_images` merely returns,
so the viewer starts displaying `["a"]`. -/
theorem restore_mismatch_not_idle :
    Option.map (fun w => w.temp_image_paths) mismatch_startup = some ["a"] ∧
    Option.map (fun w => w.temp_image_paths) mismatch_startup ≠
      some ([] : List String) := by
  constructor
  · rfl
  · decide

/-- C5 amended: whatever the readability and fingerprint checks decide,
whenever both reads of the PathStore file parse to the same list `paths`,
the viewer starts with `currentPaths = paths` at index 0 —
`check_for_existing_images` either re-installs that same list or leaves
the constructor-provided copy in place, never clearing it. -/
theorem startup_keeps_pathstore_list (file_exists : String → Bool)
    (disk : String → Option Nat) (hash_fn : String → Option String)
    (stored_hash : Option String) (paths : List String)
    (ww wh lw lh : Nat) (aot : Bool) :
    Option.map (fun w => (w.temp_image_paths, w.current_index))
      (run_float_window (some (some paths)) (some paths) file_exists disk
        hash_fn stored_hash ww wh lw lh aot) = some (paths, 0) := by
  have hcfi : ∀ w : FloatWindow,
      check_for_existing_images file_exists disk hash_fn stored_hash
        (some paths) w = w ∨
      check_for_existing_images file_exists disk hash_fn stored_hash
        (some paths) w =
        { w with temp_image_paths := paths, current_index := 0 } := by
    intro w
    simp only [check_for_existing_images]
    split
    · exact Or.inl rfl
    · split
      · split
        · split
          · exact Or.inl rfl
          · exact Or.inr rfl
        · exact Or.inr rfl
      · split
        · exact Or.inr rfl
        · exact Or.inl rfl
  set w0 := initFloatWindow ww wh lw lh aot paths with hw0
  set w1 := check_for_existing_images file_exists disk hash_fn stored_hash
    (some paths) w0 with hw1
  have hpi : w1.temp_image_paths = paths ∧ w1.current_index = 0 := by
    rcases hcfi w0 with h | h <;> rw [hw1, h] <;> exact ⟨rfl, rfl⟩
  simp only [run_float_window, Option.map]
  rw [← hw1, update_image_temp_image_paths,
    update_image_index_zero disk w1 hpi.2, hpi.1]

/-- The producer's argument to `open_float_window`: either an actual
Python list of path strings, or any non-list value. -/
inductive PyVal where
  | list (paths : List String)
  | nonList
  deriving DecidableEq

/-- `open_float_window` (the producer-side publish): validate that the
argument is a list — otherwise log an error and return, leaving the
PathStore file untouched; on success overwrite the PathStore file with the
list, then check `is_window_running` and spawn a detached viewer process
only when no viewer is found.  The returned pair is the PathStore file
state afterwards and whether a new viewer process was spawned. -/
def open_float_window (inp : PyVal) (running : Bool)
    (store : Option (Option (List String))) :
    Option (Option (List String)) × Bool :=
  match inp with
  | .nonList => (store, false)
  | .list paths =>
    let store1 := some (some paths)
    if running then (store1, false) else (store1, true)

/-- C7: publishing a non-list input logs and returns without raising
(`open_float_window` is total here), the PathStore file is left exactly as
it was, and no viewer is spawned; the write happens only on the validated
list branch, which always overwrites the file with the published list. -/
theorem publish_nonlist_no_write (running : Bool)
    (store : Option (Option (List String))) (paths : List String) :
    open_float_window PyVal.nonList running store = (store, false) ∧
    (open_float_window (PyVal.list paths) running store).1 =
      some (some paths) := by
  constructor
  · rfl
  · unfold open_float_window
    dsimp only
    split <;> rfl

/-- Viewer state displaying the one-element list `["a"]`. -/
def w_showing_a : FloatWindow := initFloatWindow 5 5 5 5 false ["a"]

/-- C6 counterexample: with the viewer displaying `["a"]`, a malformed
PathStore file leaves the session untouched, whereas a store actually
containing no data (the empty list) clears it — so a malformed file is
NOT treated as though the read had returned the empty list. -/
theorem malformed_differs_from_empty :
    (check_for_updates (fun _ => none) (some none) w_showing_a
      ).temp_image_paths = ["a"] ∧
    (check_for_updates (fun _ => none) (some (some [])) w_showing_a
      ).temp_image_paths = [] ∧
    check_for_updates (fun _ => none) (some none) w_showing_a ≠
      check_for_updates (fun _ => none) (some (some [])) w_showing_a := by
  refine ⟨rfl, rfl, ?_⟩
  decide

/-- C6 amended: an absent or malformed PathStore file makes the tick
return early with the viewer state completely unchanged (the malformed
case logs; neither raises out of the tick) — malformed content is treated
as "no change", exactly like an absent file, not as an empty list. -/
theorem tick_noop_on_absent_or_malformed (disk : String → Option Nat)
    (w : FloatWindow) :
    check_for_updates disk none w = w ∧
    check_for_updates disk (some none) w = w :=
  ⟨rfl, rfl⟩

/-- A JSON value as stored in the settings file. -/
inductive JValue where
  | jnull
  | jbool (b : Bool)
  | jint (n : Int)
  | jstr (s : String)
  deriving DecidableEq

/-- Python `settings.get(k, default)` on the parsed settings dict:
the default is substituted only when the key is missing. -/
def jget (d : List (String × JValue)) (k : String) (dv : JValue) : JValue :=
  (dictFind d k).getD dv

/-- The window configuration produced by `load_settings`:
`always_on_top` stores whatever `settings.get` returned (any JSON value),
while the geometry fields must be numbers because they are passed to
`QWidget.resize` / `QWidget.move`. -/
structure WindowCfg where
  always_on_top : JValue
  width : Int
  height : Int
  x : Int
  y : Int
  deriving DecidableEq

/-- The defaults `load_settings` falls back to: not pinned, 600×600 at
(100, 100). -/
def defaultCfg : WindowCfg :=
  { always_on_top := .jbool false
    width := 600
    height := 600
    x := 100
    y := 100 }

/-- Passing a value to `QWidget.resize` / `QWidget.move`: Python accepts
an `int` (and a `bool`, which is an `int` subclass) and raises `TypeError`
for anything else, including a string. -/
def as_int (v : JValue) : Except String Int :=
  match v with
  | .jint n => .ok n
  | .jbool b => .ok (if b then 1 else 0)
  | .jnull => .error "TypeError"
  | .jstr _ => .error "TypeError"

/-- `FloatWindow.load_settings`: `safe_read_file` with default `"{}"`
(an absent file parses as the empty object); a `json.JSONDecodeError`
is caught and yields the full defaults; otherwise each field is read with
`settings.get(key, default)` — substituting the default only for a
MISSING key — and the geometry values are handed to `resize`/`move`,
whose `TypeError` on a non-numeric value is not caught. -/
def load_settings (file : Option (Option (List (String × JValue)))) :
    Except String WindowCfg :=
  let parsed : Option (List (String × JValue)) :=
    match file with
    | none => some []
    | some p => p
  match parsed with
  | none => .ok defaultCfg
  | some d => do
    let wv ← as_int (jget d "width" (.jint 600))
    let hv ← as_int (jget d "height" (.jint 600))
    let xv ← as_int (jget d "x" (.jint 100))
    let yv ← as_int (jget d "y" (.jint 100))
    .ok
      { always_on_top := jget d "always_on_top" (.jbool false)
        width := wv
        height := hv
        x := xv
        y := yv }

/-- C8 counterexample: a settings file containing `{"width": "bad"}` does
NOT yield the default width — `settings.get("width", 600)` returns
`"bad"` because the key is present, `resize("bad", 600)` raises
`TypeError`, and that exception escapes `load_settings` (only
`json.JSONDecodeError` is caught). -/
theorem settings_invalid_width_raises :
    load_settings (some (some [("width", JValue.jstr "bad")])) =
      .error "TypeError" := by
  rfl

/-- C8 amended: `load_settings` substitutes the documented default
independently per MISSING field, and degrades to the full default record
when the file is absent or unparsable, without raising; but a field that
is present with an invalid type is passed through to `resize`/`move` and
raises an uncaught `TypeError` instead of being defaulted. -/
theorem settings_field_defaults :
    load_settings none = .ok defaultCfg ∧
    load_settings (some none) = .ok defaultCfg ∧
    load_settings (some (some [("width", JValue.jint 800)])) =
      .ok { defaultCfg with width := 800 } ∧
    load_settings (some (some [("x", JValue.jint 7), ("y", JValue.jint 8)])) =
      .ok { defaultCfg with x := 7, y := 8 } ∧
    load_settings (some (some [("height", JValue.jstr "oops")])) =
      .error "TypeError" := by
  refine ⟨rfl, rfl, rfl, rfl, rfl⟩
